import Mathlib

/-!
Verification of the transaction-construction and signing pipeline of the
neo-price-feed deployment scripts (src/scripts/*.py).

Bytes are modelled as `Nat` values below 256 in `List Nat`; hexadecimal
strings produced by the Python f-string code are modelled as lists of
hexadecimal digit values (each below 16), which is the same data the
Python `str` carries, character by character.  Machine-word arithmetic is
`Nat` with explicit `% 2 ^ w` where the Python code relies on fixed-width
behaviour.  Python functions that raise are embedded as `Option`-valued
functions (`none` = exception propagates); `try/except` fallbacks are
embedded by the corresponding `match`.  The OS entropy drawn by
`secrets.token_bytes` is passed as an explicit argument.
-/

namespace NeoPriceFeed

set_option maxRecDepth 40000

/-- Little-endian 2-byte encoding, as produced by `struct.pack` with format
`<H` (defined for values below 2 ^ 16; callers in range). -/
def le2 (n : Nat) : List Nat := [n % 256, n / 256 % 256]

/-- Little-endian 4-byte encoding, as produced by `struct.pack` with format
`<I` (defined for values below 2 ^ 32; callers in range). -/
def le4 (n : Nat) : List Nat :=
  [n % 256, n / 256 % 256, n / 65536 % 256, n / 16777216 % 256]

/-- Little-endian 8-byte encoding, as produced by `struct.pack` with format
`<Q`. -/
def le8 (n : Nat) : List Nat :=
  [n % 256, n / 256 % 256, n / 65536 % 256, n / 16777216 % 256,
   n / 4294967296 % 256, n / 1099511627776 % 256,
   n / 281474976710656 % 256, n / 72057594037927936 % 256]

/-- Big-endian 4-byte encoding of a 32-bit word. -/
def be4 (n : Nat) : List Nat :=
  [n / 16777216 % 256, n / 65536 % 256, n / 256 % 256, n % 256]

/-- Big-endian 8-byte encoding of a 64-bit value (the SHA-256 length field). -/
def be8 (n : Nat) : List Nat :=
  [n / 72057594037927936 % 256, n / 281474976710656 % 256,
   n / 1099511627776 % 256, n / 4294967296 % 256,
   n / 16777216 % 256, n / 65536 % 256, n / 256 % 256, n % 256]

/-- The two hexadecimal digits of one byte, as written by Python `bytes.hex`. -/
def hexOfByte (b : Nat) : List Nat := [b / 16 % 16, b % 16]

/-- `data.hex()`: the hexadecimal digit string of a byte string. -/
def hexOfBytes (l : List Nat) : List Nat := (l.map hexOfByte).flatten

/-- The Python f-string field `{n:02x}` for `n` below 256: two hex digits. -/
def hex2 (n : Nat) : List Nat := [n / 16 % 16, n % 16]

/-- The Python f-string field `{n:04x}` for `n` below 2 ^ 16: four hex digits. -/
def hex4 (n : Nat) : List Nat := [n / 4096 % 16, n / 256 % 16, n / 16 % 16, n % 16]

/-- Reading a hexadecimal digit string back into bytes, one byte per digit
pair: the inverse used by `bytes.fromhex` on the even-length strings the
scripts build. -/
def bytesOfHex : List Nat → List Nat
  | h :: l :: rest => (16 * h + l) :: bytesOfHex rest
  | _ => []

/-! ## SHA-256 (`hashlib.sha256`)

A direct FIPS 180-4 implementation over byte lists, used by the scripts
for signing hashes, the WIF fallback key, and (per the spec) Base58
checksums.  Words are `Nat` kept below `2 ^ 32` by explicit reduction. -/

/-- 32-bit right rotation. -/
def rotr32 (x n : Nat) : Nat := ((x >>> n) ||| (x <<< (32 - n))) % 4294967296

/-- The 64 SHA-256 round constants of FIPS 180-4 §4.2.2, written in
decimal. -/
def sha256K : List Nat :=
  [1116352408, 1899447441, 3049323471, 3921009573, 961987163,
   1508970993, 2453635748, 2870763221, 3624381080, 310598401,
   607225278, 1426881987, 1925078388, 2162078206, 2614888103,
   3248222580, 3835390401, 4022224774, 264347078, 604807628,
   770255983, 1249150122, 1555081692, 1996064986, 2554220882,
   2821834349, 2952996808, 3210313671, 3336571891, 3584528711,
   113926993, 338241895, 666307205, 773529912, 1294757372,
   1396182291, 1695183700, 1986661051, 2177026350, 2456956037,
   2730485921, 2820302411, 3259730800, 3345764771, 3516065817,
   3600352804, 4094571909, 275423344, 430227734, 506948616,
   659060556, 883997877, 958139571, 1322822218, 1537002063,
   1747873779, 1955562222, 2024104815, 2227730452, 2361852424,
   2428436474, 2756734187, 3204031479, 3329325298]

/-- The eight SHA-256 initial hash words of FIPS 180-4 §5.3.3, written in
decimal. -/
def sha256H0 : List Nat :=
  [1779033703, 3144134277, 1013904242, 2773480762,
   1359893119, 2600822924, 528734635, 1541459225]

/-- Combine four bytes into one big-endian 32-bit word per group. -/
def bytesToWordsBE : List Nat → List Nat
  | a :: b :: c :: d :: rest =>
      (16777216 * a + 65536 * b + 256 * c + d) :: bytesToWordsBE rest
  | _ => []

/-- One message-schedule extension step: append word `i` (16 ≤ i < 64) of
the schedule, computed from words `i - 2`, `i - 7`, `i - 15`, `i - 16`. -/
def sha256ExtendStep (ws : List Nat) : List Nat :=
  let i := ws.length
  let w15 := ws.getD (i - 15) 0
  let w2 := ws.getD (i - 2) 0
  let s0 := (rotr32 w15 7) ^^^ (rotr32 w15 18) ^^^ (w15 >>> 3)
  let s1 := (rotr32 w2 17) ^^^ (rotr32 w2 19) ^^^ (w2 >>> 10)
  ws ++ [(ws.getD (i - 16) 0 + s0 + ws.getD (i - 7) 0 + s1) % 4294967296]

/-- The full 64-word message schedule of one 512-bit block. -/
def sha256Schedule (block : List Nat) : List Nat :=
  (List.range 48).foldl (fun ws _ => sha256ExtendStep ws) (bytesToWordsBE block)

/-- One SHA-256 compression round on the eight-word working state. -/
def sha256Round (st : List Nat) (kw : Nat × Nat) : List Nat :=
  match st with
  | [a, b, c, d, e, f, g, h] =>
    let S1 := (rotr32 e 6) ^^^ (rotr32 e 11) ^^^ (rotr32 e 25)
    let ch := (e &&& f) ^^^ ((e ^^^ 4294967295) &&& g)
    let temp1 := (h + S1 + ch + kw.1 + kw.2) % 4294967296
    let S0 := (rotr32 a 2) ^^^ (rotr32 a 13) ^^^ (rotr32 a 22)
    let maj := (a &&& b) ^^^ (a &&& c) ^^^ (b &&& c)
    let temp2 := (S0 + maj) % 4294967296
    [(temp1 + temp2) % 4294967296, a, b, c, (d + temp1) % 4294967296, e, f, g]
  | other => other

/-- Compress one 64-byte block into the running eight-word hash state. -/
def sha256Compress (h : List Nat) (block : List Nat) : List Nat :=
  let final := (sha256K.zip (sha256Schedule block)).foldl sha256Round h
  h.zipWith (fun x y => (x + y) % 4294967296) final

/-- SHA-256 padding: append `0x80`, zeros to 56 mod 64, and the bit length
as eight big-endian bytes. -/
def sha256Pad (msg : List Nat) : List Nat :=
  msg ++ [0x80] ++ List.replicate ((64 - (msg.length + 9) % 64) % 64) 0 ++
    be8 (8 * msg.length)

/-- Split a padded message into its 64-byte blocks (`fuel` counts blocks). -/
def chunks64 : Nat → List Nat → List (List Nat)
  | 0, _ => []
  | fuel + 1, l => l.take 64 :: chunks64 fuel (l.drop 64)

/-- `hashlib.sha256(msg).digest()`: the 32-byte SHA-256 digest. -/
def sha256 (msg : List Nat) : List Nat :=
  (((chunks64 ((sha256Pad msg).length / 64) (sha256Pad msg)).foldl
      sha256Compress sha256H0).map be4).flatten

/-- `hmac.new(key, msg, hashlib.sha256).digest()`: HMAC-SHA256 per RFC 2104
with the 64-byte SHA-256 block size. -/
def hmacSha256 (key msg : List Nat) : List Nat :=
  let k0 := if 64 < key.length then sha256 key else key
  let kpad := k0 ++ List.replicate (64 - k0.length) 0
  sha256 ((kpad.map (fun b => b ^^^ 0x5c)) ++
    sha256 ((kpad.map (fun b => b ^^^ 0x36)) ++ msg))

/-- Sanity fixture: SHA-256 of the empty message matches the published
test vector. -/
theorem sha256_empty_vector :
    sha256 [] =
      [0xe3, 0xb0, 0xc4, 0x42, 0x98, 0xfc, 0x1c, 0x14, 0x9a, 0xfb, 0xf4, 0xc8,
       0x99, 0x6f, 0xb9, 0x24, 0x27, 0xae, 0x41, 0xe4, 0x64, 0x9b, 0x93, 0x4c,
       0xa4, 0x95, 0x99, 0x1b, 0x78, 0x52, 0xb8, 0x55] := by decide

/-- Sanity fixture: SHA-256 of the three bytes `"abc"` matches the published
test vector. -/
theorem sha256_abc_vector :
    sha256 [0x61, 0x62, 0x63] =
      [0xba, 0x78, 0x16, 0xbf, 0x8f, 0x01, 0xcf, 0xea, 0x41, 0x41, 0x40, 0xde,
       0x5d, 0xae, 0x22, 0x23, 0xb0, 0x03, 0x61, 0xa3, 0x96, 0x17, 0x7a, 0x9c,
       0xb4, 0x10, 0xff, 0x61, 0xf2, 0x00, 0x15, 0xad] := by decide

/-! ## Base58 and WIF decoding

`base58_decode` appears, character for character, in production_deploy.py,
deploy_transaction.py and rpc_deploy_complete.py; deploy_contract_direct.py
inlines the same big-integer loop without leading-zero restoration.  None
of them verifies a checksum. -/

/-- The characters of a string as their code points.  The scripts call
`str.encode` with encoding utf-8; on the ASCII strings involved this is one
byte per character, which is what this models. -/
def strBytes (s : String) : List Nat := s.data.map Char.toNat

/-- The Base58 alphabet of the scripts, as character codes. -/
def base58Alphabet : List Nat :=
  strBytes "123456789ABCDEFGHJKLMNPQRSTUVWXYZabcdefghijkmnopqrstuvwxyz"

/-- `alphabet.index(char)`: position of a character in the alphabet; `none`
models the `ValueError` Python raises on a character outside it. -/
def b58Index (c : Nat) : Option Nat := base58Alphabet.findIdx? (fun x => x == c)

/-- Fuel-driven minimal big-endian byte expansion of a natural number. -/
def natBytesBEGo : Nat → Nat → List Nat
  | 0, _ => []
  | fuel + 1, n => if n = 0 then [] else natBytesBEGo fuel (n / 256) ++ [n % 256]

/-- Minimal big-endian bytes of a positive natural number (empty for 0). -/
def natBytesBE (n : Nat) : List Nat := natBytesBEGo n n

/-- `bytes.fromhex(h)` for `h = hex(decoded)[2:]` zero-padded to even
length: the single byte `0x00` when `decoded` is zero, else the minimal
big-endian bytes. -/
def bigIntToBytes (n : Nat) : List Nat := if n = 0 then [0] else natBytesBE n

/-- `base58_decode` (production_deploy.py lines 25-45, identically in
deploy_transaction.py and rpc_deploy_complete.py): big-integer decode over
the alphabet, with one zero byte restored per leading one character.
`none` models the uncaught `ValueError` from `alphabet.index` on a
character outside the alphabet.  No checksum is examined. -/
def base58_decode (s : String) : Option (List Nat) := do
  let digits ← (strBytes s).mapM b58Index
  let decoded := digits.foldl (fun acc d => acc * 58 + d) 0
  let pad := ((strBytes s).takeWhile (fun c => c == 49)).length
  return List.replicate pad 0 ++ bigIntToBytes decoded

/-- `wif_to_private_key` (production_deploy.py lines 47-64): decode, accept
a 38- or 37-byte layout starting with `0x80`, and otherwise — the
`except` branch — fall back to `sha256(wif.encode()).digest()[:32]`, a key
derived by hashing the WIF text itself.  The fallback also absorbs decode
errors. -/
def wif_to_private_key_production (wif : String) : List Nat :=
  match base58_decode wif with
  | some decoded =>
      if decoded.length = 38 ∧ decoded.headD 0 = 0x80 then (decoded.drop 1).take 32
      else if decoded.length = 37 ∧ decoded.headD 0 = 0x80 then (decoded.drop 1).take 32
      else (sha256 (strBytes wif)).take 32
  | none => (sha256 (strBytes wif)).take 32

/-- `wif_to_private_key` (rpc_deploy_complete.py lines 43-56): accepts a
37-byte decode whose byte at index `length - 4` is `0x01`, or a 33-byte
decode, each starting with `0x80`; anything else raises (`none`). -/
def wif_to_private_key_rpc (wif : String) : Option (List Nat) :=
  match base58_decode wif with
  | none => none
  | some d =>
      if d.length = 37 ∧ d.headD 0 = 0x80 ∧ d.getD (d.length - 4) 0 = 0x01 then
        some ((d.drop 1).take 32)
      else if d.length = 33 ∧ d.headD 0 = 0x80 then some ((d.drop 1).take 32)
      else none

/-- `wif_to_private_key` (deploy_transaction.py lines 50-59): as the
rpc_deploy_complete variant but testing the byte at index `length - 5`. -/
def wif_to_private_key_dt (wif : String) : Option (List Nat) :=
  match base58_decode wif with
  | none => none
  | some d =>
      if d.length = 37 ∧ d.headD 0 = 0x80 ∧ d.getD (d.length - 5) 0 = 0x01 then
        some ((d.drop 1).take 32)
      else if d.length = 33 ∧ d.headD 0 = 0x80 then some ((d.drop 1).take 32)
      else none

/-- `NeoDeployment.wif_to_private_key` (deploy_contract_direct.py lines
33-55): inline big-integer decode (no leading-zero restoration), slice off
the first byte and the last four (`data[1:-4]`) without comparing those
four to any checksum, and drop a 33rd compression-flag byte if present. -/
def wif_to_private_key_direct (wif : String) : Option (List Nat) := do
  let digits ← (strBytes wif).mapM b58Index
  let decoded := digits.foldl (fun acc d => acc * 58 + d) 0
  let data := bigIntToBytes decoded
  let pk := (data.drop 1).take (data.length - 5)
  return if pk.length = 33 then pk.dropLast else pk

/-- Modelled from the spec: `decodeChecked(text)` — the checked Base58
decode §4.1 describes, which none of the scripts implements.  It decodes,
then accepts only when the trailing four bytes equal the first four bytes
of the double SHA-256 of the preceding payload, returning the payload
without the checksum; `none` models the `ChecksumMismatch` failure. -/
def decodeChecked (text : String) : Option (List Nat) :=
  match base58_decode text with
  | none => none
  | some d =>
      let payload := d.take (d.length - 4)
      if d.drop (d.length - 4) = (sha256 (sha256 payload)).take 4 then some payload
      else none

/-- Sanity fixture: the MASTER_WIF constant of the scripts decodes to 38
bytes, and — its checksum being valid — the spec-modelled checked decode
accepts it, returning the 34-byte payload (version, 32-byte key,
compression flag). -/
theorem decodeChecked_masterWif :
    (base58_decode "KzjaqMvqzF1uup6KrTKRxTgjcXE7PbKLRH84e6ckyXDt3fu7afUb").map
      List.length = some 38 ∧
    (decodeChecked "KzjaqMvqzF1uup6KrTKRxTgjcXE7PbKLRH84e6ckyXDt3fu7afUb").map
      List.length = some 34 := by decide

/-! ## Script building: PUSHDATA, push-int, syscall, varint -/

/-- `Neo3ScriptBuilder.emit_push_data` (neo3_transaction_builder.py lines
49-67): byte-level PUSHDATA emission with the four size classes; data
beyond 4294967295 bytes raises `ValueError` (`none`). -/
def emit_push_data (data : List Nat) : Option (List Nat) :=
  let length := data.length
  if length ≤ 75 then some (length :: data)
  else if length ≤ 255 then some (0x0C :: length :: data)
  else if length ≤ 65535 then some (0x0D :: (le2 length ++ data))
  else if length ≤ 4294967295 then some (0x0E :: (le4 length ++ data))
  else none

/-- `ProductionDeployer._emit_push_data` (production_deploy.py lines
196-212; identically `Neo3Deployer._emit_push_data` in
rpc_deploy_complete.py lines 244-259): the same four size classes with no
upper guard. -/
def emit_push_data_total (data : List Nat) : List Nat :=
  let length := data.length
  if length ≤ 75 then length :: data
  else if length ≤ 255 then 0x0C :: length :: data
  else if length ≤ 65535 then 0x0D :: (le2 length ++ data)
  else 0x0E :: (le4 length ++ data)

/-- `Neo3TransactionBuilder._push_data` (deploy_transaction.py lines
143-155), producing a hexadecimal digit string.  The `length ≤ 65535`
branch reproduces the Python expression
`f"0d..."[::-1][:4] + f"0d..."[4:] + data.hex()` digit for digit, where
both f-strings are `"0d"` followed by `{length:04x}` and `{data.hex()}`. -/
def push_data_hexstr (data : List Nat) : List Nat :=
  let length := data.length
  if length ≤ 75 then hex2 length ++ hexOfBytes data
  else if length ≤ 255 then [0, 12] ++ hex2 length ++ hexOfBytes data
  else if length ≤ 65535 then
    let s := [0, 13] ++ hex4 length ++ hexOfBytes data
    s.reverse.take 4 ++ s.drop 4 ++ hexOfBytes data
  else [0, 14] ++ hexOfBytes (le4 length) ++ hexOfBytes data

/-- The four PUSHDATA size classes of the Neo VM. -/
inductive PushClass
  | direct
  | data1
  | data2
  | data4
deriving DecidableEq

/-- The minimal (canonical) size class for a data length. -/
def minimalPushClass (L : Nat) : PushClass :=
  if L ≤ 75 then PushClass.direct
  else if L ≤ 255 then PushClass.data1
  else if L ≤ 65535 then PushClass.data2
  else PushClass.data4

/-- Modelled from the spec (§4.3 pushData wire format): decode one PUSHDATA
instruction into its size class, its decoded length prefix and the bytes
following the prefix.  The marker opcodes 0x0C/0x0D/0x0E are recognized
before the direct-push range, as any unambiguous reader of the format
must. -/
def decodePush : List Nat → Option (PushClass × Nat × List Nat)
  | [] => none
  | b :: rest =>
    if b = 0x0C then
      match rest with
      | l :: r => some (PushClass.data1, l, r)
      | [] => none
    else if b = 0x0D then
      match rest with
      | a :: c :: r => some (PushClass.data2, a + 256 * c, r)
      | _ => none
    else if b = 0x0E then
      match rest with
      | a :: c :: d :: e :: r =>
          some (PushClass.data4, a + 256 * c + 65536 * d + 16777216 * e, r)
      | _ => none
    else if b ≤ 75 then some (PushClass.direct, b, rest)
    else none

/-- `Neo3ScriptBuilder.emit_push_int` (neo3_transaction_builder.py lines
74-88) restricted to the non-negative values the scripts use: PUSH0,
PUSH1-PUSH16, or a PUSHINT8/16/32 little-endian payload. -/
def emit_push_int (value : Nat) : List Nat :=
  if value = 0 then [0x10]
  else if 1 ≤ value ∧ value ≤ 16 then [0x50 + value]
  else if value ≤ 127 then [0x00, value]
  else if value ≤ 32767 then 0x01 :: le2 value
  else 0x02 :: le4 value

/-- `ProductionDeployer._encode_varint` (production_deploy.py lines
288-297; identically `Neo3Transaction._serialize_varint` in
rpc_deploy_complete.py lines 153-162). -/
def encode_varint (value : Nat) : List Nat :=
  if value < 0xFD then [value]
  else if value ≤ 0xFFFF then 0xFD :: le2 value
  else if value ≤ 0xFFFFFFFF then 0xFE :: le4 value
  else 0xFF :: le8 value

/-- `Neo3TransactionBuilder._encode_varint` (deploy_transaction.py lines
228-237), producing a hexadecimal digit string; the `value ≤ 0xFFFF` branch
reproduces `f"fd..."[::-1][:4] + f"fd..."[4:]` digit for digit, where the
f-string is `"fd"` followed by `{value:04x}`. -/
def encode_varint_hexstr (value : Nat) : List Nat :=
  if value < 0xFD then hex2 value
  else if value ≤ 0xFFFF then
    let s := [15, 13] ++ hex4 value
    s.reverse.take 4 ++ s.drop 4
  else if value ≤ 0xFFFFFFFF then [15, 14] ++ hexOfBytes (le4 value)
  else [15, 15] ++ hexOfBytes (le8 value)

/-- Modelled from the spec (§4.4 varint wire format): decode one
variable-length integer into its value and the remaining bytes. -/
def decode_varint : List Nat → Option (Nat × List Nat)
  | [] => none
  | b :: rest =>
    if b < 0xFD then some (b, rest)
    else if b = 0xFD then
      match rest with
      | a :: c :: r => some (a + 256 * c, r)
      | _ => none
    else if b = 0xFE then
      match rest with
      | a :: c :: d :: e :: r =>
          some (a + 256 * c + 65536 * d + 16777216 * e, r)
      | _ => none
    else
      match rest with
      | a :: c :: d :: e :: f :: g :: h :: i :: r =>
          some (a + 256 * c + 65536 * d + 16777216 * e + 4294967296 * f +
            1099511627776 * g + 281474976710656 * h +
            72057594037927936 * i, r)
      | _ => none

/-! ## Deployment scripts -/

/-- The ContractManagement hash of the scripts in big-endian display
order: the bytes of "fffdc93764dbaddd97c48f252a53ea4643faa3fd". -/
def managementContractBE : List Nat :=
  [0xff, 0xfd, 0xc9, 0x37, 0x64, 0xdb, 0xad, 0xdd, 0x97, 0xc4,
   0x8f, 0x25, 0x2a, 0x53, 0xea, 0x46, 0x43, 0xfa, 0xa3, 0xfd]

/-- `MANAGEMENT_CONTRACT` of rpc_deploy_complete.py line 27: the display
bytes reversed to little-endian at module load. -/
def MANAGEMENT_CONTRACT : List Nat := managementContractBE.reverse

/-- `SYSTEM_CONTRACT_CALL` (rpc_deploy_complete.py line 41 and
neo3_transaction_builder.py line 33): the System.Contract.Call
interop-service identifier. -/
def SYSTEM_CONTRACT_CALL : Nat := 0x627D5B52

/-- The UTF-8 bytes of the method name pushed by every deployment script. -/
def deployName : List Nat := strBytes "deploy"

/-- `Neo3Deployer.create_deployment_script` (rpc_deploy_complete.py lines
203-242) applied to already-read NEF and manifest bytes: push manifest,
push NEF, PUSH2, PACK, push "deploy", push the little-endian management
hash, then SYSCALL with the interop id packed `<I`. -/
def create_deployment_script (nef manifest : List Nat) : List Nat :=
  emit_push_data_total manifest ++ emit_push_data_total nef ++
    [0x52] ++ [0xC1] ++ emit_push_data_total deployName ++
    emit_push_data_total MANAGEMENT_CONTRACT ++
    [0x41] ++ le4 SYSTEM_CONTRACT_CALL

/-- `ProductionDeployer.create_deploy_script` (production_deploy.py lines
151-194): the same layout, but the four bytes following the SYSCALL opcode
are the literal `bytes.fromhex("525bd627")`. -/
def create_deploy_script_production (nef manifest : List Nat) : List Nat :=
  emit_push_data_total manifest ++ emit_push_data_total nef ++
    [0x52] ++ [0xC1] ++ emit_push_data_total deployName ++
    emit_push_data_total MANAGEMENT_CONTRACT ++
    [0x41] ++ [0x52, 0x5b, 0xd6, 0x27]

/-- Modelled from the spec (§4.3 contract-call script algorithm): push the
arguments in reverse order, push the count, PACK, push the UTF-8 method
name, push the byte-reversed target hash, then the syscall opcode followed
by the 4-byte little-endian interop identifier. -/
def contractCallScript (args : List (List Nat)) (method targetBE : List Nat)
    (interopId : Nat) : List Nat :=
  ((args.reverse.map emit_push_data_total).flatten) ++
    emit_push_int args.length ++ [0xC1] ++ emit_push_data_total method ++
    emit_push_data_total targetBE.reverse ++ [0x41] ++ le4 interopId

/-! ## Fee estimation, transaction building, signing -/

/-- A node dry-run (`invokescript`) response: execution state and the gas
consumed. -/
structure InvokeResult where
  state : String
  gasconsumed : Nat
deriving DecidableEq

/-- A system/network fee pair. -/
structure Fees where
  system_fee : Nat
  network_fee : Nat
deriving DecidableEq

/-- `Neo3Deployer.estimate_fees` (rpc_deploy_complete.py lines 261-281)
with the `invokescript` response as an argument: on a HALT dry run the
reported gas is the system fee; on any other state, or on a failed call,
the conservative 10 GAS (10000000000 datoshi) fallback is used and
execution continues.  Network fee is (script length + 200) × 1000. -/
def estimate_fees (invoke : Option InvokeResult) (script : List Nat) : Fees :=
  { system_fee :=
      match invoke with
      | some r => if r.state = "HALT" then r.gasconsumed else 10000000000
      | none => 10000000000,
    network_fee := (script.length + 200) * 1000 }

/-- The unsigned-transaction fields production_deploy.py assembles. -/
structure NeoTx where
  version : Nat
  nonce : Nat
  system_fee : Nat
  network_fee : Nat
  valid_until_block : Nat
  script : List Nat
deriving DecidableEq

/-- `ProductionDeployer.build_transaction` (production_deploy.py lines
214-252) with the two RPC responses as arguments: raises when
`getblockcount` fails (`none`); otherwise takes the HALT gas or the 10 GAS
fallback — on a FAULT state it still proceeds — and assembles the
transaction with network fee (script bytes + 300) × 1000, the time-derived
nonce masked to 32 bits, and valid-until-block = height + 1000. -/
def build_transaction (blockcount : Option Nat) (invoke : Option InvokeResult)
    (time : Nat) (script : List Nat) : Option NeoTx :=
  match blockcount with
  | none => none
  | some height =>
      some { version := 0,
             nonce := time &&& 0xFFFFFFFF,
             system_fee :=
               match invoke with
               | some r => if r.state = "HALT" then r.gasconsumed else 10000000000
               | none => 10000000000,
             network_fee := (script.length + 300) * 1000,
             valid_until_block := height + 1000,
             script := script }

/-- `struct.pack` with format `<I` raises `struct.error` outside 32 bits. -/
def pack_u32 (n : Nat) : Option (List Nat) :=
  if n < 4294967296 then some (le4 n) else none

/-- `ProductionDeployer.serialize_unsigned_tx` (production_deploy.py lines
254-286) for the fixed single signer of the script: version byte, nonce `<I`,
system and network fee as varints, valid-until-block `<I`, signer count 1,
the 20-byte account script hash with scope byte 0, attribute count 0, then
the script behind its varint length. -/
def serialize_unsigned_tx (script_hash : List Nat) (tx : NeoTx) :
    Option (List Nat) := do
  let nonceB ← pack_u32 tx.nonce
  let vubB ← pack_u32 tx.valid_until_block
  return [tx.version] ++ nonceB ++ encode_varint tx.system_fee ++
    encode_varint tx.network_fee ++ vubB ++ [1] ++ script_hash ++ [0] ++ [0] ++
    encode_varint tx.script.length ++ tx.script

/-- `Neo3Transaction.__init__` (rpc_deploy_complete.py line 96): the nonce
a freshly constructed transaction carries, `int(time.time()) & 0xFFFFFFFF`. -/
def neo3Transaction_init_nonce (time : Nat) : Nat := time &&& 0xFFFFFFFF

/-- The signing hash all three signers compute —
`ProductionDeployer.sign_and_send` (production_deploy.py line 305),
`Neo3TransactionBuilder.sign_transaction` (deploy_transaction.py line 244)
and `Neo3Deployer.create_witness` (rpc_deploy_complete.py line 287): a
single SHA-256 of the bare unsigned serialization, with nothing
prepended. -/
def signing_hash (unsigned : List Nat) : List Nat := sha256 unsigned

/-- Modelled from the spec (§4.6 signingHash): SHA-256 applied once to the
network-magic-prefixed unsigned serialization, the magic prepended as its
4-byte little-endian encoding before hashing. -/
def signing_hash_spec (magic : Nat) (unsigned : List Nat) : List Nat :=
  sha256 (le4 magic ++ unsigned)

/-- `self.testnet_magic` (deploy_contract_direct.py line 31): the one
network magic constant the scripts define — never used in signing. -/
def testnet_magic : Nat := 877933390

/-- `simple_ecdsa_sign` (production_deploy.py lines 71-85): HMAC-SHA256 of
the message hash under the private key, zero-padded (or truncated) to 64
bytes. -/
def simple_ecdsa_sign (private_key message_hash : List Nat) : List Nat :=
  if (hmacSha256 private_key message_hash).length < 64 then
    hmacSha256 private_key message_hash ++
      List.replicate (64 - (hmacSha256 private_key message_hash).length) 0
  else (hmacSha256 private_key message_hash).take 64

/-- The signature bytes `Neo3TransactionBuilder.sign_transaction` uses
(deploy_transaction.py line 251): `secrets.token_bytes(64)` — 64 bytes of
fresh OS entropy standing in for a signature.  The entropy drawn is the
argument; the private key and the transaction hash play no part. -/
def placeholder_signature (entropy : List Nat) : List Nat := entropy

/-! ## The working_rpc_deploy pipeline and its RPC call order -/

/-- The RPC responses one run of working_rpc_deploy.py observes: the
`getblockcount` result and the `getnep17balances` entries, each `none`
when the call fails. -/
structure RpcEnv where
  blockcount : Option Nat
  balances : Option (List (String × Nat))

/-- The GAS asset hash string the balance loop compares against. -/
def gasAssetHash : String := "0xd2a4cff31913016155e38e474a2c06d08be276cf"

/-- `Neo3RpcDeployment.validate_deployment_ready` (working_rpc_deploy.py
lines 49-79): call `getblockcount` (a falsy result — failure or height 0 —
aborts), then `getnep17balances`, take the amount recorded for the GAS
asset (the last matching entry wins), and fail below 15 GAS.  Returns the
outcome together with the RPC methods called, in order.  The Python float
comparison `amount / 100000000 < 15` is taken on integers as
`amount < 1500000000`. -/
def validate_deployment_ready (env : RpcEnv) : Bool × List String :=
  match env.blockcount with
  | none => (false, ["getblockcount"])
  | some height =>
      if height = 0 then (false, ["getblockcount"])
      else
        match env.balances with
        | none => (false, ["getblockcount", "getnep17balances"])
        | some bals =>
            let gas := bals.foldl
              (fun acc b => if b.1 = gasAssetHash then b.2 else acc) 0
            (decide (1500000000 ≤ gas), ["getblockcount", "getnep17balances"])

/-- The four magic bytes every valid NEF file starts with. -/
def nefMagic : List Nat := strBytes "NEF3"

/-- `Neo3RpcDeployment.prepare_contract_deployment` (working_rpc_deploy.py
lines 81-118) on already-read bytes: reject a NEF that does not start with
`NEF3`, then reject a manifest whose JSON parse fails (`manifest_ok`
carries the `json.loads` outcome).  No RPC call is made here. -/
def prepare_contract_deployment (nef : List Nat) (manifest_ok : Bool) :
    Option Unit :=
  if nef.take 4 = nefMagic then (if manifest_ok then some () else none)
  else none

/-- The `main` flow of working_rpc_deploy.py: validate readiness (the two
RPC calls above), then prepare the contract; the later cost-estimation and
transaction-demonstration steps issue no RPC calls and always succeed on a
prepared contract.  Returns overall success together with the RPC methods
called, in order. -/
def working_rpc_deploy_main (env : RpcEnv) (nef : List Nat)
    (manifest_ok : Bool) : Bool × List String :=
  let v := validate_deployment_ready env
  if v.1 then
    match prepare_contract_deployment nef manifest_ok with
    | none => (false, v.2)
    | some _ => (true, v.2)
  else (false, v.2)

/-! ## Digest-length lemmas -/

/-- One compression round preserves the length of the working state. -/
theorem sha256Round_length (st : List Nat) (kw : Nat × Nat) :
    (sha256Round st kw).length = st.length := by
  unfold sha256Round
  split <;> simp_all

/-- Folding compression rounds preserves the length of the working state. -/
theorem foldl_sha256Round_length (l : List (Nat × Nat)) (st : List Nat) :
    (l.foldl sha256Round st).length = st.length := by
  induction l generalizing st with
  | nil => rfl
  | cons p t ih => rw [List.foldl_cons, ih, sha256Round_length]

/-- Compressing a block preserves the length of the hash state. -/
theorem sha256Compress_length (h block : List Nat) :
    (sha256Compress h block).length = h.length := by
  unfold sha256Compress
  rw [List.length_zipWith, foldl_sha256Round_length, Nat.min_self]

/-- Folding block compressions preserves the length of the hash state. -/
theorem foldl_sha256Compress_length (blocks : List (List Nat)) (st : List Nat) :
    (blocks.foldl sha256Compress st).length = st.length := by
  induction blocks generalizing st with
  | nil => rfl
  | cons b t ih => rw [List.foldl_cons, ih, sha256Compress_length]

/-- Serializing hash words to bytes yields four bytes per word. -/
theorem flatten_map_be4_length (l : List Nat) :
    ((l.map be4).flatten).length = 4 * l.length := by
  induction l with
  | nil => rfl
  | cons a t ih =>
      simp only [List.map_cons, List.flatten_cons, List.length_append, ih,
        List.length_cons, be4]
      simp
      omega

/-- Every SHA-256 digest is 32 bytes. -/
theorem sha256_length (msg : List Nat) : (sha256 msg).length = 32 := by
  unfold sha256
  rw [flatten_map_be4_length, foldl_sha256Compress_length]
  rfl

/-- Every HMAC-SHA256 tag is 32 bytes. -/
theorem hmacSha256_length (key msg : List Nat) :
    (hmacSha256 key msg).length = 32 := by
  simp only [hmacSha256]
  exact sha256_length _

/-! ## Claim theorems -/

/-- C10: every transaction the pipeline constructs carries
`time &&& 0xFFFFFFFF` as its nonce, which is strictly below `2 ^ 32`, so
`struct.pack` of the 4-byte little-endian nonce field succeeds and the
field decodes back to the nonce exactly. -/
theorem C10_theorem (time height : Nat) (invoke : Option InvokeResult)
    (script : List Nat) :
    neo3Transaction_init_nonce time < 4294967296 ∧
    (build_transaction (some height) invoke time script).map NeoTx.nonce =
      some (neo3Transaction_init_nonce time) ∧
    pack_u32 (neo3Transaction_init_nonce time) =
      some (le4 (neo3Transaction_init_nonce time)) ∧
    (le4 (neo3Transaction_init_nonce time)).foldr
      (fun b acc => b + 256 * acc) 0 = neo3Transaction_init_nonce time := by
  have hb : neo3Transaction_init_nonce time ≤ 0xFFFFFFFF := Nat.and_le_right
  refine ⟨by omega, ?_, ?_, ?_⟩
  · simp [build_transaction, neo3Transaction_init_nonce]
  · simp only [pack_u32, if_pos (by omega : neo3Transaction_init_nonce time < 4294967296)]
  · simp only [le4, List.foldr_cons, List.foldr_nil]
    omega

/-- C6: the varint encoder of production_deploy.py (identical in
rpc_deploy_complete.py) uses the minimal marker class and round-trips on
all seven boundary values — but the varint encoder of
deploy_transaction.py garbles its `0xFD`-marker class: at `0xFD` it emits
the digits of "df00fd" (first byte `0xDF`, not the `0xFD` marker; decoding
yields `0xDF` with two bytes left over) and at `0xFFFF` the digits of
"ffffff". -/
theorem C6_theorem :
    (decode_varint (encode_varint 0) = some (0, []) ∧
     decode_varint (encode_varint 0xFC) = some (0xFC, []) ∧
     decode_varint (encode_varint 0xFD) = some (0xFD, []) ∧
     decode_varint (encode_varint 0xFFFF) = some (0xFFFF, []) ∧
     decode_varint (encode_varint 0x10000) = some (0x10000, []) ∧
     decode_varint (encode_varint 0xFFFFFFFF) = some (0xFFFFFFFF, []) ∧
     decode_varint (encode_varint 0x100000000) = some (0x100000000, []) ∧
     (encode_varint 0).headD 0 = 0 ∧
     (encode_varint 0xFC).headD 0 = 0xFC ∧
     (encode_varint 0xFD).headD 0 = 0xFD ∧
     (encode_varint 0xFFFF).headD 0 = 0xFD ∧
     (encode_varint 0x10000).headD 0 = 0xFE ∧
     (encode_varint 0xFFFFFFFF).headD 0 = 0xFE ∧
     (encode_varint 0x100000000).headD 0 = 0xFF) ∧
    bytesOfHex (encode_varint_hexstr 0xFD) = [0xDF, 0x00, 0xFD] ∧
    bytesOfHex (encode_varint_hexstr 0xFFFF) = [0xFF, 0xFF, 0xFF] ∧
    decode_varint (bytesOfHex (encode_varint_hexstr 0xFD)) =
      some (0xDF, [0x00, 0xFD]) ∧
    decode_varint (bytesOfHex (encode_varint_hexstr 0xFFFF)) = none := by
  decide

/-- C5: the byte-level PUSHDATA emitters choose the minimal class with a
correct length prefix (shown here at the boundary length 256), but
the `_push_data` of deploy_transaction.py garbles its PUSHDATA2 class: on a
256-byte buffer it emits 1030 zero hex digits — no 0x0D opcode, a decoded
length prefix of 0 in the direct class, and the data duplicated — instead
of the PUSHDATA2 form. -/
theorem C5_theorem :
    push_data_hexstr (List.replicate 256 0) = List.replicate 1030 0 ∧
    decodePush (bytesOfHex (push_data_hexstr (List.replicate 256 0))) =
      some (PushClass.direct, 0, List.replicate 514 0) ∧
    minimalPushClass 256 = PushClass.data2 ∧
    (emit_push_data (List.replicate 256 0)).bind decodePush =
      some (PushClass.data2, 256, List.replicate 256 0) ∧
    (emit_push_data_total (List.replicate 256 0)).take 3 = [0x0D, 0x00, 0x01] := by
  decide

/-- C4: the deployment script of rpc_deploy_complete.py ends with the SYSCALL
opcode followed by the 4-byte little-endian System.Contract.Call
identifier, but production_deploy.py appends the literal bytes
52 5b d6 27 — not the little-endian encoding 52 5b 7d 62 of the
identifier 0x627D5B52 its comment names — so the two scripts disagree in
exactly those four bytes. -/
theorem C4_theorem :
    create_deployment_script [] [] =
      [0x00, 0x00, 0x52, 0xC1] ++ emit_push_data_total deployName ++
        emit_push_data_total MANAGEMENT_CONTRACT ++
        [0x41, 0x52, 0x5b, 0x7d, 0x62] ∧
    create_deploy_script_production [] [] =
      [0x00, 0x00, 0x52, 0xC1] ++ emit_push_data_total deployName ++
        emit_push_data_total MANAGEMENT_CONTRACT ++
        [0x41, 0x52, 0x5b, 0xd6, 0x27] ∧
    le4 SYSTEM_CONTRACT_CALL = [0x52, 0x5b, 0x7d, 0x62] ∧
    [0x52, 0x5b, 0xd6, 0x27] ≠ le4 SYSTEM_CONTRACT_CALL ∧
    create_deploy_script_production [] [] ≠ create_deployment_script [] [] := by
  decide

/-- The rpc_deploy_complete.py deployment script realizes the contract-call
algorithm of the spec: arguments pushed in reverse order, the count via
the small-int opcode, PACK, the method name, the byte-reversed target
hash, and the syscall with little-endian interop identifier. -/
theorem create_deployment_script_layout (nef manifest : List Nat) :
    create_deployment_script nef manifest =
      contractCallScript [nef, manifest] deployName managementContractBE
        SYSTEM_CONTRACT_CALL := by
  simp [create_deployment_script, contractCallScript, emit_push_int,
    MANAGEMENT_CONTRACT]

/-- C2: when the dry run reports the FAULT state, fee estimation does not
fail — it returns the 10 GAS fallback — and the pipeline proceeds to build
the transaction: the claim that no transaction is built is false at this
input. -/
theorem C2_counterexample :
    estimate_fees (some { state := "FAULT", gasconsumed := 0 }) [] =
      { system_fee := 10000000000, network_fee := 200000 } ∧
    build_transaction (some 1000) (some { state := "FAULT", gasconsumed := 0 })
      0 [] =
      some { version := 0, nonce := 0, system_fee := 10000000000,
             network_fee := 300000, valid_until_block := 2000, script := [] } := by
  decide

/-- C2 (amended): on every dry-run state other than HALT the pipeline
substitutes the conservative 10 GAS system fee and continues: the
transaction is still built, carrying the fallback fee. -/
theorem C2_theorem (height time : Nat) (r : InvokeResult) (script : List Nat)
    (h : r.state ≠ "HALT") :
    (estimate_fees (some r) script).system_fee = 10000000000 ∧
    build_transaction (some height) (some r) time script =
      some { version := 0, nonce := time &&& 0xFFFFFFFF,
             system_fee := 10000000000,
             network_fee := (script.length + 300) * 1000,
             valid_until_block := height + 1000, script := script } := by
  constructor
  · simp [estimate_fees, h]
  · simp [build_transaction, h]

/-- C2 witness: the amended theorem applied to a concrete faulted dry run. -/
theorem C2_witness :
    ({ state := "FAULT", gasconsumed := 5 } : InvokeResult).state ≠ "HALT" ∧
    (estimate_fees (some { state := "FAULT", gasconsumed := 5 })
      [7]).system_fee = 10000000000 ∧
    build_transaction (some 3) (some { state := "FAULT", gasconsumed := 5 })
      9 [7] =
      some { version := 0, nonce := 9 &&& 0xFFFFFFFF,
             system_fee := 10000000000, network_fee := (1 + 300) * 1000,
             valid_until_block := 3 + 1000, script := [7] } :=
  ⟨by decide, (C2_theorem 3 9 { state := "FAULT", gasconsumed := 5 } [7]
      (by decide)).1,
    (C2_theorem 3 9 { state := "FAULT", gasconsumed := 5 } [7] (by decide)).2⟩

/-- C9: on a NEF whose bytes do not begin with `NEF3`, the
working_rpc_deploy.py pipeline has already issued the `getblockcount` and
`getnep17balances` RPC calls by the time it fails: the claim that no RPC
call precedes the magic check is false at this input. -/
theorem C9_counterexample :
    working_rpc_deploy_main
      { blockcount := some 100, balances := some [(gasAssetHash, 2000000000)] }
      [0, 1, 2, 3] true =
      (false, ["getblockcount", "getnep17balances"]) := by
  decide

/-- The RPC log of the validation step is always one of its two
prefixes of `[getblockcount, getnep17balances]`. -/
theorem validate_log_cases (env : RpcEnv) :
    (validate_deployment_ready env).2 = ["getblockcount"] ∨
    (validate_deployment_ready env).2 = ["getblockcount", "getnep17balances"] := by
  unfold validate_deployment_ready
  rcases env with ⟨_ | h, _ | b⟩ <;> simp <;> split <;> simp

/-- C9 (amended): a NEF without the `NEF3` magic does make the pipeline
fail, and before any dry-run (`invokescript`) or submission
(`sendrawtransaction`) call — but the `getblockcount` and
`getnep17balances` calls of the validation step are issued before the
magic is ever examined. -/
theorem C9_theorem (env : RpcEnv) (nef : List Nat) (manifest_ok : Bool)
    (h : nef.take 4 ≠ nefMagic) :
    (working_rpc_deploy_main env nef manifest_ok).1 = false ∧
    (working_rpc_deploy_main env nef manifest_ok).2 =
      (validate_deployment_ready env).2 ∧
    "invokescript" ∉ (working_rpc_deploy_main env nef manifest_ok).2 ∧
    "sendrawtransaction" ∉ (working_rpc_deploy_main env nef manifest_ok).2 := by
  have hp : prepare_contract_deployment nef manifest_ok = none := by
    unfold prepare_contract_deployment
    rw [if_neg h]
  have hmain : working_rpc_deploy_main env nef manifest_ok =
      (false, (validate_deployment_ready env).2) := by
    unfold working_rpc_deploy_main
    rw [hp]
    split <;> simp_all
  refine ⟨by rw [hmain], by rw [hmain], ?_, ?_⟩ <;>
    rw [hmain] <;>
    rcases validate_log_cases env with hl | hl <;> simp [hl]

/-- C9 witness: the amended theorem applied to a NEF with a wrong magic,
under an environment that fails validation at the balance step. -/
theorem C9_witness :
    ([0x4E, 0x45, 0x46, 0x34, 0x00] : List Nat).take 4 ≠ nefMagic ∧
    (working_rpc_deploy_main { blockcount := some 5, balances := some [] }
      [0x4E, 0x45, 0x46, 0x34, 0x00] true).1 = false ∧
    "sendrawtransaction" ∉
      (working_rpc_deploy_main { blockcount := some 5, balances := some [] }
        [0x4E, 0x45, 0x46, 0x34, 0x00] true).2 :=
  ⟨by decide,
    (C9_theorem { blockcount := some 5, balances := some [] }
      [0x4E, 0x45, 0x46, 0x34, 0x00] true (by decide)).1,
    (C9_theorem { blockcount := some 5, balances := some [] }
      [0x4E, 0x45, 0x46, 0x34, 0x00] true (by decide)).2.2.2⟩

/-- C7: the string "1" decodes to the two bytes 00 00 — a stripped payload
nowhere near 32 bytes — yet the WIF decoder of production_deploy.py returns
32 bytes of key material: the SHA-256 of the ASCII text "1".  The claim
that every such input fails with no key material returned is false here. -/
theorem C7_counterexample :
    base58_decode "1" = some [0, 0] ∧
    wif_to_private_key_production "1" =
      [0x6b, 0x86, 0xb2, 0x73, 0xff, 0x34, 0xfc, 0xe1, 0x9d, 0x6b, 0x80, 0x4e,
       0xff, 0x5a, 0x3f, 0x57, 0x47, 0xad, 0xa4, 0xea, 0xa2, 0x2f, 0x1d, 0x49,
       0xc0, 0x1e, 0x52, 0xdd, 0xb7, 0x87, 0x5b, 0x4b] := by
  decide

/-- C7 (amended): on a decode whose length matches no accepted WIF layout,
the decoder of rpc_deploy_complete.py does fail and returns no key material —
though without ever checking the Base58 checksum — while
the decoder of production_deploy.py substitutes the 32-byte fallback key
`sha256(wif)[:32]` instead of failing. -/
theorem C7_theorem (wif : String) (d : List Nat)
    (hd : base58_decode wif = some d)
    (h37 : d.length ≠ 37) (h33 : d.length ≠ 33) (h38 : d.length ≠ 38) :
    wif_to_private_key_rpc wif = none ∧
    wif_to_private_key_production wif = (sha256 (strBytes wif)).take 32 ∧
    (wif_to_private_key_production wif).length = 32 := by
  refine ⟨?_, ?_, ?_⟩
  · simp [wif_to_private_key_rpc, hd, h37, h33]
  · simp [wif_to_private_key_production, hd, h38, h37]
  · simp [wif_to_private_key_production, hd, h38, h37, List.length_take,
      sha256_length]

/-- The concrete WIF-decoder input used by the C7 witness. -/
def wifOne : String := "1"

/-- The concrete Base58 input used by the C8 witness. -/
def fiveOnes : String := "11111"

/-- C7 witness: the amended theorem applied to the input "1". -/
theorem C7_witness :
    base58_decode wifOne = some [0, 0] ∧
    wif_to_private_key_rpc wifOne = none ∧
    (wif_to_private_key_production wifOne).length = 32 :=
  ⟨by decide,
    (C7_theorem wifOne [0, 0] (by decide) (by decide) (by decide) (by decide)).1,
    (C7_theorem wifOne [0, 0] (by decide) (by decide) (by decide) (by decide)).2.2⟩

/-- C8: the string "11111" decodes to six zero bytes whose trailing four
bytes do not equal the first four bytes of the double SHA-256 of the
preceding payload — yet the base58_decode of the scripts succeeds and returns
all the bytes, where the claim demands a ChecksumMismatch failure; the
spec-modelled checked decode does reject it. -/
theorem C8_counterexample :
    base58_decode "11111" = some [0, 0, 0, 0, 0, 0] ∧
    [0, 0, 0, 0] ≠ (sha256 (sha256 [0, 0])).take 4 ∧
    decodeChecked "11111" = none := by
  decide

/-- C8 (amended): the base58_decode of the scripts performs no checksum
verification and returns the full decoded bytes, checksum included; the
checked decode described by the spec (modelled here) accepts exactly when
the trailing four bytes equal the double-SHA-256 prefix of the payload,
returning the payload without them, and fails otherwise. -/
theorem C8_theorem (text : String) (d : List Nat)
    (hd : base58_decode text = some d) :
    (d.drop (d.length - 4) = (sha256 (sha256 (d.take (d.length - 4)))).take 4 →
      decodeChecked text = some (d.take (d.length - 4))) ∧
    (d.drop (d.length - 4) ≠ (sha256 (sha256 (d.take (d.length - 4)))).take 4 →
      decodeChecked text = none) := by
  unfold decodeChecked
  rw [hd]
  constructor <;> intro h <;> simp [h]

/-- C8 witness: the amended theorem applied to the input "11111", whose
checksum does not match. -/
theorem C8_witness :
    base58_decode fiveOnes = some (List.replicate 6 0) ∧
    decodeChecked fiveOnes = none :=
  ⟨by decide,
    (C8_theorem fiveOnes (List.replicate 6 0) (by decide)).2 (by decide)⟩

/-- C1: two runs of the signing step of deploy_transaction.py over the same
private key and the same transaction hash draw different OS entropy and
return different 64-byte outputs — the signature is `secrets.token_bytes`,
a function of neither the key nor the hash — refuting determinism. -/
theorem C1_counterexample :
    (placeholder_signature (List.replicate 64 0)).length = 64 ∧
    (placeholder_signature (List.replicate 64 1)).length = 64 ∧
    placeholder_signature (List.replicate 64 0) ≠
      placeholder_signature (List.replicate 64 1) := by
  decide

/-- C1 (amended): `simple_ecdsa_sign` of production_deploy.py is
deterministic (a pure function of key and hash) and always returns exactly
64 bytes — but those bytes are the 32-byte HMAC-SHA256 tag followed by 32
zero bytes, not an ECDSA `r ‖ s` pair. -/
theorem C1_theorem (private_key message_hash : List Nat) :
    simple_ecdsa_sign private_key message_hash =
      hmacSha256 private_key message_hash ++ List.replicate 32 0 ∧
    (simple_ecdsa_sign private_key message_hash).length = 64 := by
  have h32 := hmacSha256_length private_key message_hash
  constructor
  · unfold simple_ecdsa_sign
    rw [if_pos (by omega), h32]
  · unfold simple_ecdsa_sign
    rw [if_pos (by omega)]
    simp [h32]

/-- C3: at a concrete one-byte unsigned serialization, the hash the code
signs — SHA-256 of the bare bytes — differs from SHA-256 of the
magic-prefixed bytes the claim describes, for the one testnet magic
constant the repository defines. -/
theorem C3_counterexample :
    signing_hash [0] ≠ signing_hash_spec testnet_magic [0] := by
  decide

/-- C3 (amended): the signing hash is SHA-256 applied once to the bare
unsigned serialization — a genuine 32-byte digest, never a placeholder —
with no network magic prepended. -/
theorem C3_theorem (unsigned : List Nat) :
    signing_hash unsigned = sha256 unsigned ∧
    (signing_hash unsigned).length = 32 :=
  ⟨rfl, sha256_length unsigned⟩

end NeoPriceFeed
